import Mathlib

/-!
Verification of the T2AutoTron local agent (t2_agent.py) against its
natural-language specification.

The agent is a small HTTP control-plane service.  Its observable behaviour
is a handful of pure decision procedures layered over effectful primitives
(filesystem existence checks, an HTTP probe, a TCP connect probe, process
spawn and kill syscalls).  We embed the decision logic directly and model
the effectful primitives as explicit oracle records passed in: each oracle
field records the outcome the operating system would have produced for the
corresponding syscall at the moment the code performs it.
-/

namespace T2Agent

/-! ## Constants (module-level constants of t2_agent.py) -/

def DEFAULT_PORT : Int := 5050

def CHATTERBOX_PORT : Int := 8100

/-- Scripts looked for to identify a Chatterbox installation
(CHATTERBOX_SCRIPTS in the source, in the same order). -/
def CHATTERBOX_SCRIPTS : List String := ["server.py", "run_api_server.py", "app.py"]

/-! ## JSON scalar values and the parsed configuration dict -/

/-- JSON scalar values that can appear in the flat configuration record. -/
inductive JValue where
  | jnull
  | jbool (b : Bool)
  | jint (n : Int)
  | jstr (s : String)
deriving DecidableEq

/-- Python truthiness of a JSON scalar: None and False are falsy, a number is
truthy iff nonzero, a string is truthy iff nonempty. -/
def JValue.truthy : JValue → Bool
  | .jnull => false
  | .jbool b => b
  | .jint n => n != 0
  | .jstr s => s != ""

/-- The parsed configuration dict, as an association list of key/value pairs
(first binding wins, mirroring dict lookup). -/
abbrev Config := List (String × JValue)

/-- dict.get(key, default): the value bound to the key, else the default. -/
def cfgGetD (c : Config) (k : String) (d : JValue) : JValue :=
  match c.find? (fun p => p.1 == k) with
  | some p => p.2
  | none => d

/-! ## Filesystem oracle -/

/-- Outcomes of the filesystem existence primitives at the moment the code
queries them: os.path.isdir and os.path.exists. -/
structure Fs where
  isdir : String → Bool
  pathExists : String → Bool

/-- Abstract path join standing for os.path.join of a directory and a
single component. -/
def joinPath (a b : String) : String := a ++ "/" ++ b

/-! ## validate_chatterbox_dir -/

/-- validate_chatterbox_dir(path): false with a reason when the path is
falsy (empty) or not a directory; otherwise scans CHATTERBOX_SCRIPTS in
order and returns true with the first script whose joined path exists,
else false with a reason. -/
def validate_chatterbox_dir (fs : Fs) (path : String) : Bool × String :=
  if path = "" ∨ fs.isdir path = false then
    (false, "Directory does not exist")
  else
    match CHATTERBOX_SCRIPTS.find? (fun scr => fs.pathExists (joinPath path scr)) with
    | some scr => (true, scr)
    | none => (false, "Could not find Chatterbox scripts in this folder")

/-! ## find_python_in_dir -/

/-- The ordered virtual-environment interpreter candidates probed by
find_python_in_dir, by platform. -/
def pythonCandidates (isWindows : Bool) (dir : String) : List String :=
  if isWindows then
    [joinPath (joinPath (joinPath dir "venv") "Scripts") "python.exe",
     joinPath (joinPath (joinPath dir ".venv") "Scripts") "python.exe",
     joinPath (joinPath (joinPath dir "env") "Scripts") "python.exe"]
  else
    [joinPath (joinPath (joinPath dir "venv") "bin") "python",
     joinPath (joinPath (joinPath dir ".venv") "bin") "python",
     joinPath (joinPath (joinPath dir "env") "bin") "python"]

/-- find_python_in_dir(chatterbox_dir): the first existing candidate, else
sys.executable (passed in as the value of that external primitive). -/
def find_python_in_dir (fs : Fs) (isWindows : Bool) (dir : String)
    (sysExecutable : String) : String :=
  match (pythonCandidates isWindows dir).find? fs.pathExists with
  | some c => c
  | none => sysExecutable

/-! ## Liveness probe -/

/-- Outcomes of the two network primitives used by the liveness probe at the
moment it runs: whether urllib urlopen on http://localhost:port/ returned a
response (as opposed to raising), and whether a raw TCP connect_ex to the
port returned 0. -/
structure ProbeEnv where
  httpResp : Bool
  tcpConnect : Bool
deriving DecidableEq

/-- is_port_in_use(port): a TCP connect against localhost succeeds. -/
def is_port_in_use (e : ProbeEnv) : Bool := e.tcpConnect

/-- is_chatterbox_running(): true when the HTTP GET returns any response;
on any exception falls through to the TCP connect probe. -/
def is_chatterbox_running (e : ProbeEnv) : Bool :=
  if e.httpResp then true else is_port_in_use e

/-! ## Lifecycle state and configuration view

start_chatterbox and stop_chatterbox read the configuration through
config.get with fixed defaults.  The setup wizard always persists these
keys with the types below, so the lifecycle code is embedded over the
typed view of those lookups (field value = what config.get returns with
the documented default folded in). -/

/-- The configuration values the lifecycle functions read. -/
structure LifecycleConfig where
  chatterbox_dir : String
  chatterbox_script : String
  chatterbox_python : String
  chatterbox_port : Int
deriving DecidableEq

/-- The process-wide mutable state: the global chatterbox_process handle,
holding the pid of the Popen object when one is tracked. -/
structure AgentState where
  chatterbox_process : Option Int
deriving DecidableEq

/-! ## start_chatterbox -/

/-- The JSON result dict returned by start_chatterbox, with one field per
key that can appear (absent keys are none). -/
structure StartResult where
  success : Bool
  message : Option String
  alreadyRunning : Option Bool
  pid : Option Int
  error : Option String
  hint : Option String
deriving DecidableEq

/-- Outcome of the subprocess.Popen call: the pid of the new child, or the
string of the exception it raised. -/
inductive SpawnOutcome where
  | ok (pid : Int)
  | raises (msg : String)
deriving DecidableEq

/-- Oracle for one start_chatterbox call.  probe holds the network outcomes
for the initial liveness check; pathExists the filesystem outcomes;
sysExecutable the value of sys.executable; spawn the Popen outcome; and
postGraceProbe the network outcomes as they stand after the two-second
grace sleep (the source never consults them, which is exactly what the
claims about the post-grace result are checked against). -/
structure StartEnv where
  probe : ProbeEnv
  pathExists : String → Bool
  sysExecutable : String
  spawn : SpawnOutcome
  postGraceProbe : ProbeEnv

/-- start_chatterbox(): returns the result dict, the new global state, and
the list of (interpreter, pid) spawns performed during the call.  The
Windows and POSIX Popen branches differ only in detach flags, so both are
the single spawn oracle here. -/
def start_chatterbox (e : StartEnv) (c : LifecycleConfig) (s : AgentState) :
    StartResult × AgentState × List (String × Int) :=
  if is_chatterbox_running e.probe then
    ({ success := true, message := some "Already running",
       alreadyRunning := some true, pid := none, error := none, hint := none },
     s, [])
  else
    let script_path := joinPath c.chatterbox_dir c.chatterbox_script
    if e.pathExists script_path = false then
      ({ success := false, message := none, alreadyRunning := none, pid := none,
         error := some ("Script not found: " ++ script_path),
         hint := some "Delete t2_agent_config.json to reconfigure" },
       s, [])
    else
      let python_exe :=
        if e.pathExists c.chatterbox_python then c.chatterbox_python
        else e.sysExecutable
      match e.spawn with
      | .ok pid =>
          ({ success := true, message := some "Chatterbox started",
             alreadyRunning := none, pid := some pid, error := none, hint := none },
           { chatterbox_process := some pid }, [(python_exe, pid)])
      | .raises msg =>
          ({ success := false, message := none, alreadyRunning := none,
             pid := none, error := some msg, hint := none },
           s, [])

/-! ## stop_chatterbox -/

/-- The JSON result dict returned by stop_chatterbox. -/
structure StopResult where
  success : Bool
  message : Option String
  error : Option String
deriving DecidableEq

/-- Outcome of the handle-based kill call (taskkill via subprocess.run on
Windows, Popen.terminate elsewhere): it returned, or it raised. -/
inductive KillOutcome where
  | ok
  | raises
deriving DecidableEq

/-- Kill-side effects stop_chatterbox performs, in order. -/
inductive StopAction where
  | handleKill (pid : Int)
  | portLookup
  | portKill (pid : Int)
deriving DecidableEq

/-- Oracle for one stop_chatterbox call: the platform, the outcome of the
handle kill call, whether the netstat/taskkill sweep raised, the pids the
netstat scan reports listening on the companion port, and the network
outcomes for the re-probe after the one-second settle sleep. -/
structure StopEnv where
  isWindows : Bool
  killHandle : KillOutcome
  sweepRaises : Bool
  listenerPids : List Int
  postProbe : ProbeEnv

/-- stop_chatterbox(): handle-based kill guarded by the handle, then the
port sweep (netstat lookup plus taskkill per listening pid) under the
Windows platform check, then settle and re-probe.  The handle is cleared
inside the try block, after the kill call: a raise skips the clearing.
Returns the result dict, the new global state, and the actions performed. -/
def stop_chatterbox (e : StopEnv) (s : AgentState) :
    StopResult × AgentState × List StopAction :=
  let step1 : AgentState × List StopAction :=
    match s.chatterbox_process with
    | some pid =>
        match e.killHandle with
        | .ok => ({ chatterbox_process := none }, [StopAction.handleKill pid])
        | .raises => (s, [StopAction.handleKill pid])
    | none => (s, [])
  let sweep : List StopAction :=
    if e.isWindows then
      if e.sweepRaises then [StopAction.portLookup]
      else StopAction.portLookup :: e.listenerPids.map StopAction.portKill
    else []
  let result : StopResult :=
    if is_chatterbox_running e.postProbe = false then
      { success := true, message := some "Stopped", error := none }
    else
      { success := false, message := none, error := some "Failed to stop" }
  (result, step1.1, step1.2 ++ sweep)

/-! ## Settings store: persisted file, save and load -/

/-- The persisted configuration file as the load path observes it: absent,
present but failing json.load, or parsed to a configuration dict. -/
inductive FileState where
  | absent
  | parseError
  | content (c : Config)
deriving DecidableEq

/-- The json.dump write in run_setup_wizard, wrapped in try/except: on
success the file now holds the record, on failure the previous file state
persists and the wizard merely warns. -/
def save_config (prev : FileState) (c : Config) (writeOk : Bool) : FileState :=
  if writeOk then .content c else prev

/-- The read side: os.path.exists plus json.load, parse failure swallowed.
Returns the parsed record when there is one (found = isSome). -/
def load_config : FileState → Option Config
  | .content c => some c
  | _ => none

/-- Outcome of load_or_setup_config: proceed with the loaded record, or
fall through to run_setup_wizard. -/
inductive LoadOutcome where
  | loaded (c : Config)
  | setup
deriving DecidableEq

/-- load_or_setup_config(): missing file or parse failure falls to the
wizard; a parsed record is used only when setup_complete and
chatterbox_dir are both truthy and validate_chatterbox_dir accepts the
directory.  A truthy non-string chatterbox_dir makes os.path.isdir raise
inside the same try block, which the except swallows into the wizard
path. -/
def load_or_setup_config (fs : Fs) (file : FileState) : LoadOutcome :=
  match file with
  | .absent => .setup
  | .parseError => .setup
  | .content c =>
      if (cfgGetD c "setup_complete" .jnull).truthy
          && (cfgGetD c "chatterbox_dir" .jnull).truthy then
        match cfgGetD c "chatterbox_dir" .jnull with
        | .jstr s =>
            if (validate_chatterbox_dir fs s).1 then .loaded c else .setup
        | _ => .setup
      else .setup

/-! ## main: agent listen port selection -/

/-- The port expression in main: args.port or config.get(agent_port,
DEFAULT_PORT).  argparse gives args.port type int with default
DEFAULT_PORT; an int is truthy iff nonzero, so the dict value is reached
only when the command line passes port 0. -/
def main_port (argsPort : Int) (c : Config) : JValue :=
  if argsPort != 0 then .jint argsPort
  else cfgGetD c "agent_port" (.jint DEFAULT_PORT)

/-! ## Concrete instances used to exercise the theorems -/

/-- Probe outcomes with the port free: HTTP raises, TCP connect fails. -/
def probeDown : ProbeEnv := { httpResp := false, tcpConnect := false }

/-- Probe outcomes with the port held but HTTP failing: TCP connect only. -/
def probeUp : ProbeEnv := { httpResp := false, tcpConnect := true }

/-- A well-formed lifecycle configuration. -/
def cW : LifecycleConfig :=
  { chatterbox_dir := "/opt/cb", chatterbox_script := "server.py",
    chatterbox_python := "/opt/cb/venv/bin/python", chatterbox_port := 8100 }

/-- Start oracle: nothing running, every path exists, spawn yields pid 42. -/
def eStart1 : StartEnv :=
  { probe := probeDown, pathExists := fun _ => true,
    sysExecutable := "/usr/bin/python3", spawn := .ok 42,
    postGraceProbe := probeDown }

/-- Start oracle as after a successful first start: the companion now holds
the port. -/
def eStart2 : StartEnv := { eStart1 with probe := probeUp }

/-- Start oracle spawning pid 5, the world not running afterwards either. -/
def eStart5a : StartEnv := { eStart1 with spawn := .ok 5 }

/-- Same oracle except the post-grace probe would report running. -/
def eStart5b : StartEnv := { eStart5a with postGraceProbe := probeUp }

/-- Stop oracle: POSIX, kill call returns, nothing listening, port free. -/
def eStopIdle : StopEnv :=
  { isWindows := false, killHandle := .ok, sweepRaises := false,
    listenerPids := [], postProbe := probeDown }

/-- Stop oracle: POSIX, the handle kill call raises. -/
def eStopRaise : StopEnv := { eStopIdle with killHandle := .raises }

/-- Stop oracle: POSIX, pid 42 listening on the companion port. -/
def eStopPosix : StopEnv :=
  { eStopIdle with listenerPids := [42], postProbe := probeUp }

/-- Stop oracle: Windows, sweep succeeds, pid 42 listening. -/
def eStopWin : StopEnv :=
  { eStopIdle with isWindows := true, listenerPids := [42] }

/-- A filesystem where every path exists. -/
def fsAll : Fs := { isdir := fun _ => true, pathExists := fun _ => true }

/-- A filesystem where no path exists. -/
def fsNone : Fs := { isdir := fun _ => false, pathExists := fun _ => false }

/-- A parsed configuration record as the wizard persists it. -/
def cCfg : Config :=
  [("chatterbox_dir", JValue.jstr "/opt/cb"),
   ("chatterbox_python", JValue.jstr "/opt/cb/venv/bin/python"),
   ("chatterbox_script", JValue.jstr "server.py"),
   ("chatterbox_port", JValue.jint 8100),
   ("agent_port", JValue.jint 5050),
   ("setup_complete", JValue.jbool true)]

/-! ## Helper lemmas -/

/-- validate_chatterbox_dir accepts a path exactly when it is nonempty, is
a directory, and one of the recognized entry scripts exists under it. -/
theorem validate_chatterbox_dir_true_iff (fs : Fs) (s : String) :
    (validate_chatterbox_dir fs s).1 = true ↔
      s ≠ "" ∧ fs.isdir s = true ∧
        ∃ scr ∈ CHATTERBOX_SCRIPTS, fs.pathExists (joinPath s scr) = true := by
  unfold validate_chatterbox_dir
  by_cases h1 : s = ""
  · simp [h1]
  · by_cases h2 : fs.isdir s = false
    · simp [h1, h2]
    · have h2t : fs.isdir s = true := by
        cases h : fs.isdir s
        · exact absurd h h2
        · rfl
      rw [if_neg (by simp [h1, h2])]
      cases hf : CHATTERBOX_SCRIPTS.find? (fun scr => fs.pathExists (joinPath s scr)) with
      | some scr =>
          have hmem := List.mem_of_find?_eq_some hf
          have hp := List.find?_some hf
          constructor
          · intro _
            exact ⟨h1, h2t, scr, hmem, by simpa using hp⟩
          · intro _
            rfl
      | none =>
          constructor
          · intro hc
            simp at hc
          · rintro ⟨-, -, scr, hmem, hex⟩
            have hnone := List.find?_eq_none.mp hf scr hmem
            simp [hex] at hnone

/-- find? returns the element at the first index whose predicate holds when
all earlier elements fail it. -/
theorem find_first_of_earlier_neg {α : Type} (p : α → Bool) (l : List α) (i : Nat)
    (h : i < l.length) (hp : p (l.get ⟨i, h⟩) = true)
    (hprev : ∀ j (hj : j < l.length), j < i → p (l.get ⟨j, hj⟩) = false) :
    l.find? p = some (l.get ⟨i, h⟩) := by
  induction l generalizing i with
  | nil => simp at h
  | cons a t ih =>
      cases i with
      | zero => exact List.find?_cons_of_pos _ hp
      | succ n =>
          have ha : p a = false :=
            hprev 0 (Nat.succ_le_succ (Nat.zero_le _)) (Nat.succ_pos n)
          rw [List.find?_cons_of_neg _ (by simp [ha])]
          have hn : n < t.length := Nat.lt_of_succ_lt_succ h
          have hget : (a :: t).get ⟨n + 1, h⟩ = t.get ⟨n, hn⟩ := rfl
          rw [hget]
          rw [hget] at hp
          refine ih n hn hp ?_
          intro j hj hlt
          have := hprev (j + 1) (Nat.succ_lt_succ hj) (Nat.succ_lt_succ hlt)
          exact this

/-! ## Claim theorems -/

/-- C1: Start is idempotent with respect to an already-running companion:
whenever the liveness probe reports running, start_chatterbox returns a
success result with alreadyRunning set, spawns nothing and leaves the
state unchanged; hence two sequential starts from a not-running state, the
spawned companion holding the port at the second call, spawn exactly one
process, with the second call reporting alreadyRunning. -/
theorem c1_start_idempotent :
    (∀ (e : StartEnv) (c : LifecycleConfig) (s : AgentState),
        is_chatterbox_running e.probe = true →
        start_chatterbox e c s =
          ({ success := true, message := some "Already running",
             alreadyRunning := some true, pid := none, error := none,
             hint := none }, s, [])) ∧
    (∀ (e1 e2 : StartEnv) (c : LifecycleConfig) (s : AgentState) (pid : Int),
        is_chatterbox_running e1.probe = false →
        e1.pathExists (joinPath c.chatterbox_dir c.chatterbox_script) = true →
        e1.spawn = .ok pid →
        is_chatterbox_running e2.probe = true →
        ((start_chatterbox e1 c s).2.2 ++
            (start_chatterbox e2 c (start_chatterbox e1 c s).2.1).2.2).length = 1 ∧
        (start_chatterbox e2 c (start_chatterbox e1 c s).2.1).1.success = true ∧
        (start_chatterbox e2 c (start_chatterbox e1 c s).2.1).1.alreadyRunning
          = some true) := by
  constructor
  · intro e c s h
    simp [start_chatterbox, h]
  · intro e1 e2 c s pid h1 h2 h3 h4
    simp [start_chatterbox, h1, h2, h3, h4]

/-- C1 witness: concrete two-call run with pid 42 spawned once. -/
theorem c1_start_idempotent_witness :
    ((start_chatterbox eStart1 cW { chatterbox_process := none }).2.2 ++
        (start_chatterbox eStart2 cW
          (start_chatterbox eStart1 cW { chatterbox_process := none }).2.1).2.2).length
      = 1 ∧
    (start_chatterbox eStart2 cW
        (start_chatterbox eStart1 cW { chatterbox_process := none }).2.1).1.success
      = true ∧
    (start_chatterbox eStart2 cW
        (start_chatterbox eStart1 cW { chatterbox_process := none }).2.1).1.alreadyRunning
      = some true :=
  c1_start_idempotent.2 eStart1 eStart2 cW { chatterbox_process := none } 42
    rfl rfl rfl rfl

/-- C2 counterexample: on a non-Windows platform, with no handle tracked
and pid 42 bound to the companion port, stop_chatterbox performs no
port-based action at all, refuting the claim that the sweep runs on every
platform. -/
theorem c2_sweep_counterexample :
    (stop_chatterbox eStopPosix { chatterbox_process := none }).2.2 = [] ∧
    eStopPosix.isWindows = false ∧ eStopPosix.listenerPids = [42] := by
  refine ⟨rfl, rfl, rfl⟩

/-- C2 amended: the port-based sweep (port lookup and kill of every
listening pid) is performed only when the platform is Windows; on other
platforms the trace holds no port lookup and no port kill. -/
theorem c2_sweep_windows_only (e : StopEnv) (s : AgentState) :
    (e.isWindows = false →
      StopAction.portLookup ∉ (stop_chatterbox e s).2.2 ∧
      ∀ pid : Int, StopAction.portKill pid ∉ (stop_chatterbox e s).2.2) ∧
    (e.isWindows = true → e.sweepRaises = false →
      StopAction.portLookup ∈ (stop_chatterbox e s).2.2 ∧
      ∀ pid ∈ e.listenerPids,
        StopAction.portKill pid ∈ (stop_chatterbox e s).2.2) := by
  constructor
  · intro hw
    cases hc : s.chatterbox_process with
    | none => simp [stop_chatterbox, hw, hc]
    | some p =>
        cases hk : e.killHandle <;> simp [stop_chatterbox, hw, hc, hk]
  · intro hw hs
    cases hc : s.chatterbox_process with
    | none => simp [stop_chatterbox, hw, hs, hc]
    | some p =>
        cases hk : e.killHandle <;> simp [stop_chatterbox, hw, hs, hc, hk]

/-- C2 amended witness: on Windows the sweep looks the port up and kills
the listening pid 42. -/
theorem c2_sweep_windows_only_witness :
    StopAction.portLookup ∈ (stop_chatterbox eStopWin { chatterbox_process := none }).2.2 ∧
    StopAction.portKill 42 ∈ (stop_chatterbox eStopWin { chatterbox_process := none }).2.2 := by
  have h := (c2_sweep_windows_only eStopWin { chatterbox_process := none }).2 rfl rfl
  exact ⟨h.1, h.2 42 (by simp [eStopWin])⟩

/-- C3: stop_chatterbox returns success exactly when the post-settle
re-probe reports not running; a failure result is the fixed record with no
sub-step detail; and with no handle and a free port the call succeeds. -/
theorem c3_stop_result (e : StopEnv) (s : AgentState) :
    ((stop_chatterbox e s).1.success = !(is_chatterbox_running e.postProbe)) ∧
    ((stop_chatterbox e s).1.success = false →
      (stop_chatterbox e s).1 =
        { success := false, message := none, error := some "Failed to stop" }) ∧
    (s.chatterbox_process = none →
      e.postProbe = { httpResp := false, tcpConnect := false } →
      (stop_chatterbox e s).1.success = true) := by
  refine ⟨?_, ?_, ?_⟩
  · cases h : is_chatterbox_running e.postProbe <;> simp [stop_chatterbox, h]
  · intro hf
    cases h : is_chatterbox_running e.postProbe <;>
      simp [stop_chatterbox, h] at hf ⊢
  · intro _ h2
    simp [stop_chatterbox, h2, is_chatterbox_running, is_port_in_use]

/-- C3 witness: stopping with no handle and the port free succeeds. -/
theorem c3_stop_result_witness :
    (stop_chatterbox eStopIdle { chatterbox_process := none }).1.success = true :=
  (c3_stop_result eStopIdle { chatterbox_process := none }).2.2 rfl rfl

/-- C4 counterexample: when the terminate call raises, stop_chatterbox
returns with the handle still set to pid 7, refuting the claim that the
handle is None after any Stop. -/
theorem c4_handle_counterexample :
    (stop_chatterbox eStopRaise { chatterbox_process := some 7 }).2.1.chatterbox_process
        = some 7 ∧
    (stop_chatterbox eStopRaise { chatterbox_process := some 7 }).2.1.chatterbox_process
        ≠ none := by
  refine ⟨rfl, by simp [stop_chatterbox, eStopRaise]⟩

/-- C4 amended: when a handle exists, it is cleared whenever the terminate
call returns without raising, even if it failed to terminate the process;
when the call raises, the handle is left unchanged. -/
theorem c4_handle_cleared (e : StopEnv) (s : AgentState) (pid : Int) :
    (s.chatterbox_process = some pid → e.killHandle = .ok →
      (stop_chatterbox e s).2.1.chatterbox_process = none) ∧
    (s.chatterbox_process = some pid → e.killHandle = .raises →
      (stop_chatterbox e s).2.1 = s) := by
  constructor <;> intro h1 h2 <;> simp [stop_chatterbox, h1, h2]

/-- C4 amended witness: a returning terminate call clears the handle. -/
theorem c4_handle_cleared_witness :
    (stop_chatterbox eStopIdle { chatterbox_process := some 3 }).2.1.chatterbox_process
      = none :=
  (c4_handle_cleared eStopIdle { chatterbox_process := some 3 } 3).1 rfl rfl

/-- C5 counterexample: two runs that differ only in whether the post-grace
probe would report running produce the same result, whose message is the
fixed started message; so the result does not depend on a post-grace
liveness probe and never reports a still-starting outcome. -/
theorem c5_postgrace_counterexample :
    start_chatterbox eStart5a cW { chatterbox_process := none } =
      start_chatterbox eStart5b cW { chatterbox_process := none } ∧
    (start_chatterbox eStart5a cW { chatterbox_process := none }).1.message =
      some "Chatterbox started" ∧
    is_chatterbox_running eStart5a.postGraceProbe = false ∧
    is_chatterbox_running eStart5b.postGraceProbe = true :=
  ⟨rfl, rfl, rfl, rfl⟩

/-- C5 amended: every start that reaches a successful spawn returns, after
the grace period, the fixed success result with the started message and
the pid, independent of any post-grace liveness probe. -/
theorem c5_start_fixed_success (e : StartEnv) (c : LifecycleConfig)
    (s : AgentState) (pid : Int) :
    is_chatterbox_running e.probe = false →
    e.pathExists (joinPath c.chatterbox_dir c.chatterbox_script) = true →
    e.spawn = .ok pid →
    (start_chatterbox e c s).1 =
      { success := true, message := some "Chatterbox started",
        alreadyRunning := none, pid := some pid, error := none,
        hint := none } := by
  intro h1 h2 h3
  simp [start_chatterbox, h1, h2, h3]

/-- C5 amended witness: the concrete spawn of pid 5 returns the fixed
success result. -/
theorem c5_start_fixed_success_witness :
    (start_chatterbox eStart5a cW { chatterbox_process := none }).1 =
      { success := true, message := some "Chatterbox started",
        alreadyRunning := none, pid := some 5, error := none,
        hint := none } :=
  c5_start_fixed_success eStart5a cW { chatterbox_process := none } 5 rfl rfl rfl

/-- C6: the liveness probe is the dual probe: it reports running iff the
HTTP GET returned a response or the TCP connect succeeded; in particular
any received HTTP response counts as running, on HTTP failure the result
is exactly the TCP connect outcome, and an unrelated process holding the
port with HTTP erroring still counts as running. -/
theorem c6_dual_probe (e : ProbeEnv) :
    (is_chatterbox_running e = (e.httpResp || e.tcpConnect)) ∧
    (e.httpResp = true → is_chatterbox_running e = true) ∧
    (e.httpResp = false → is_chatterbox_running e = e.tcpConnect) ∧
    (e.httpResp = false → e.tcpConnect = true → is_chatterbox_running e = true) := by
  refine ⟨?_, ?_, ?_, ?_⟩ <;>
    · intros
      cases h : e.httpResp <;>
        simp_all [is_chatterbox_running, is_port_in_use]

/-- C6 witness: with the HTTP probe erroring and an unrelated process
holding the port, the probe reports running. -/
theorem c6_dual_probe_witness : is_chatterbox_running probeUp = true :=
  (c6_dual_probe probeUp).2.2.2 rfl rfl

/-- C7: a load proceeds with the parsed record only when setup_complete is
truthy and the configured directory exists on disk with one of the
recognized entry scripts; a missing file, a parse failure, or a violated
invariant (directory missing or no recognized script) all re-enter
first-run setup. -/
theorem c7_load_invariant (fs : Fs) (c : Config) :
    (load_or_setup_config fs .absent = .setup) ∧
    (load_or_setup_config fs .parseError = .setup) ∧
    (∀ c2, load_or_setup_config fs (.content c) = .loaded c2 →
      c2 = c ∧ (cfgGetD c "setup_complete" .jnull).truthy = true ∧
      ∃ s, cfgGetD c "chatterbox_dir" .jnull = .jstr s ∧
        fs.isdir s = true ∧
        ∃ scr ∈ CHATTERBOX_SCRIPTS, fs.pathExists (joinPath s scr) = true) ∧
    (∀ s, cfgGetD c "chatterbox_dir" .jnull = .jstr s →
      (fs.isdir s = false ∨
        ∀ scr ∈ CHATTERBOX_SCRIPTS, fs.pathExists (joinPath s scr) = false) →
      load_or_setup_config fs (.content c) = .setup) := by
  refine ⟨rfl, rfl, ?_, ?_⟩
  · intro c2 hload
    simp only [load_or_setup_config] at hload
    split at hload
    · rename_i hcond
      split at hload
      · rename_i s hd
        split at hload
        · rename_i hv
          cases hload
          have hsc := ((Bool.and_eq_true _ _).mp hcond).1
          obtain ⟨-, hisdir, hex⟩ :=
            (validate_chatterbox_dir_true_iff fs s).mp hv
          exact ⟨rfl, hsc, s, hd, hisdir, hex⟩
        · exact absurd hload (by simp)
      · exact absurd hload (by simp)
    · exact absurd hload (by simp)
  · intro s hd hbad
    simp only [load_or_setup_config]
    split
    · rw [hd]
      show (if (validate_chatterbox_dir fs s).1 = true
          then LoadOutcome.loaded c else LoadOutcome.setup) = LoadOutcome.setup
      cases hv : (validate_chatterbox_dir fs s).1 with
      | false => simp
      | true =>
          obtain ⟨-, hisdir, scr, hmem, hex⟩ :=
            (validate_chatterbox_dir_true_iff fs s).mp hv
          cases hbad with
          | inl h =>
              rw [hisdir] at h
              exact absurd h (by simp)
          | inr h =>
              rw [h scr hmem] at hex
              exact absurd hex (by simp)
    · rfl

/-- C7 witness: a record claiming setup_complete whose directory no longer
exists on disk makes the load re-enter setup. -/
theorem c7_load_invariant_witness :
    load_or_setup_config fsNone (.content cCfg) = .setup :=
  (c7_load_invariant fsNone cCfg).2.2.2 "/opt/cb" rfl (Or.inl rfl)

/-- C8: find_python_in_dir always yields a value: either the agent
interpreter, or an existing candidate from the fixed ordered list; when no
candidate exists it is the agent interpreter, and when some candidate is
the first existing one it is returned. -/
theorem c8_find_interpreter (fs : Fs) (isWindows : Bool) (dir : String)
    (sysexe : String) :
    (find_python_in_dir fs isWindows dir sysexe = sysexe ∨
      (find_python_in_dir fs isWindows dir sysexe ∈ pythonCandidates isWindows dir ∧
        fs.pathExists (find_python_in_dir fs isWindows dir sysexe) = true)) ∧
    ((∀ cand ∈ pythonCandidates isWindows dir, fs.pathExists cand = false) →
      find_python_in_dir fs isWindows dir sysexe = sysexe) ∧
    (∀ i (h : i < (pythonCandidates isWindows dir).length),
      fs.pathExists ((pythonCandidates isWindows dir).get ⟨i, h⟩) = true →
      (∀ j (hj : j < (pythonCandidates isWindows dir).length), j < i →
        fs.pathExists ((pythonCandidates isWindows dir).get ⟨j, hj⟩) = false) →
      find_python_in_dir fs isWindows dir sysexe =
        (pythonCandidates isWindows dir).get ⟨i, h⟩) := by
  refine ⟨?_, ?_, ?_⟩
  · unfold find_python_in_dir
    cases hf : (pythonCandidates isWindows dir).find? fs.pathExists with
    | none => exact Or.inl rfl
    | some cand =>
        exact Or.inr ⟨List.mem_of_find?_eq_some hf, List.find?_some hf⟩
  · intro hall
    unfold find_python_in_dir
    rw [List.find?_eq_none.mpr (fun a ha => by simp [hall a ha])]
  · intro i h hp hprev
    unfold find_python_in_dir
    rw [find_first_of_earlier_neg fs.pathExists _ i h hp hprev]

/-- C8 witness: with no candidate on disk the agent interpreter itself is
returned. -/
theorem c8_find_interpreter_witness :
    find_python_in_dir fsNone false "/opt/cb" "/usr/bin/python3"
      = "/usr/bin/python3" :=
  (c8_find_interpreter fsNone false "/opt/cb" "/usr/bin/python3").2.1
    (fun _ _ => rfl)

/-- C9: after a write that succeeds, loading finds the record and every
field (installation directory, interpreter, entry script, companion port,
agent port, setup flag) equals the one saved. -/
theorem c9_save_load_roundtrip (prev : FileState) (c : Config) (writeOk : Bool) :
    writeOk = true →
    load_config (save_config prev c writeOk) = some c ∧
    ∃ c2, load_config (save_config prev c writeOk) = some c2 ∧
      cfgGetD c2 "chatterbox_dir" .jnull = cfgGetD c "chatterbox_dir" .jnull ∧
      cfgGetD c2 "chatterbox_python" .jnull = cfgGetD c "chatterbox_python" .jnull ∧
      cfgGetD c2 "chatterbox_script" .jnull = cfgGetD c "chatterbox_script" .jnull ∧
      cfgGetD c2 "chatterbox_port" .jnull = cfgGetD c "chatterbox_port" .jnull ∧
      cfgGetD c2 "agent_port" .jnull = cfgGetD c "agent_port" .jnull ∧
      cfgGetD c2 "setup_complete" .jnull = cfgGetD c "setup_complete" .jnull := by
  intro hw
  subst hw
  exact ⟨rfl, c, rfl, rfl, rfl, rfl, rfl, rfl, rfl⟩

/-- C9 witness: round trip of the wizard record through the store. -/
theorem c9_save_load_roundtrip_witness :
    load_config (save_config .absent cCfg true) = some cCfg :=
  (c9_save_load_roundtrip .absent cCfg true rfl).1

/-- C10: the listen port is the command-line port whenever it is nonzero —
in particular a default invocation binds 5050 and ignores the persisted
agent_port entirely — and the persisted agent_port (with its default) is
consulted only when the command line passes port 0. -/
theorem c10_port_selection (p : Int) (c : Config) :
    (p ≠ 0 → main_port p c = .jint p) ∧
    (main_port 0 c = cfgGetD c "agent_port" (.jint DEFAULT_PORT)) ∧
    (∀ c2 : Config, main_port DEFAULT_PORT c = .jint 5050 ∧
      main_port DEFAULT_PORT c = main_port DEFAULT_PORT c2) := by
  refine ⟨?_, ?_, ?_⟩
  · intro hp
    simp [main_port, hp]
  · simp [main_port]
  · intro c2
    constructor <;> norm_num [main_port, DEFAULT_PORT]

/-- C10 witness: a nonzero command-line port wins over the stored record. -/
theorem c10_port_selection_witness :
    main_port 8080 cCfg = .jint 8080 :=
  (c10_port_selection 8080 cCfg).1 (by decide)

end T2Agent
